import Mathlib

/-!
# slurm_errno.c: error codes and their description strings

A shallow embedding of `src/common/slurm_errno.c`.

* `slurm_errtab_t`, `slurm_errtab`: the static table of (number, message) entries.
* `_lookup_slurm_api_errtab`: the linear search through the table;
  `lookup_loop` is the same loop written with the index of the source.
* `slurm_strerror`, `slurm_get_errno`, `slurm_seterrno`, `slurm_perror`: the
  exported functions, written as functions on an explicit process state
  (`ProcState`: the libc `errno` slot and the text handed to `stderr`).
* `fprintf_stderr`: the libc call `fprintf(stderr, ...)` as this file can
  observe it; what the call stores into `errno`, if anything, is an argument.
* `Memory`, `exec`, `run_exec`: the same calls on a memory that also holds the
  static array `slurm_errtab`, which the source does not declare `const`.

The numeric values of the symbolic error codes are declared in
`slurm/slurm_errno.h`; they enter the development as a parameter
`codes : ErrSymbol → Int`.  The libc function `strerror` is a parameter
`strerror : Int → String`.  C `int` values are modelled as `Int`; the file
performs no arithmetic on them, only equality tests and copies.
-/

set_option autoImplicit false

namespace SlurmErrno

/-- Type for error string table entries (`slurm_errtab_t`): a number and
its message.  The messages of the table are string literals. -/
structure slurm_errtab_t where
  xe_number : Int
  xe_message : String
  deriving DecidableEq

/-- The symbolic error constants that key the entries of `slurm_errtab`, in
the order in which the table uses them.  Their numeric values come from
`slurm/slurm_errno.h`. -/
inductive ErrSymbol where
  | SLURM_UNEXPECTED_MSG_ERROR
  | SLURM_COMMUNICATIONS_CONNECTION_ERROR
  | SLURM_COMMUNICATIONS_SEND_ERROR
  | SLURM_COMMUNICATIONS_RECEIVE_ERROR
  | SLURM_COMMUNICATIONS_SHUTDOWN_ERROR
  | SLURM_PROTOCOL_VERSION_ERROR
  | SLURM_PROTOCOL_IO_STREAM_VERSION_ERROR
  | SLURM_PROTOCOL_AUTHENTICATION_ERROR
  | SLURM_NO_CHANGE_IN_DATA
  | ESLURM_INVALID_PARTITION_NAME
  | ESLURM_DEFAULT_PARTITION_NOT_SET
  | ESLURM_ACCESS_DENIED
  | ESLURM_JOB_MISSING_REQUIRED_PARTITION_GROUP
  | ESLURM_REQUESTED_NODES_NOT_IN_PARTITION
  | ESLURM_TOO_MANY_REQUESTED_CPUS
  | ESLURM_TOO_MANY_REQUESTED_NODES
  | ESLURM_ERROR_ON_DESC_TO_RECORD_COPY
  | ESLURM_JOB_MISSING_SIZE_SPECIFICATION
  | ESLURM_JOB_SCRIPT_MISSING
  | ESLURM_USER_ID_MISSING
  | ESLURM_JOB_NAME_TOO_LONG
  | ESLURM_DUPLICATE_JOB_ID
  | ESLURM_PATHNAME_TOO_LONG
  | ESLURM_NOT_TOP_PRIORITY
  | ESLURM_REQUESTED_NODE_CONFIG_UNAVAILABLE
  | ESLURM_REQUESTED_PART_CONFIG_UNAVAILABLE
  | ESLURM_NODES_BUSY
  | ESLURM_INVALID_JOB_ID
  | ESLURM_INVALID_NODE_NAME
  | ESLURM_WRITING_TO_FILE
  | ESLURM_TRANSITION_STATE_NO_UPDATE
  | ESLURM_ALREADY_DONE
  | ESLURM_INTERCONNECT_FAILURE
  | ESLURM_BAD_DIST
  | ESLURM_JOB_PENDING
  | ESLURM_BAD_TASK_COUNT
  | ENOSLURM
  | EBADMAGIC_QSWLIBSTATE
  | EBADMAGIC_QSWJOBINFO
  | EINVAL_PRGCREATE
  | ECHILD_PRGDESTROY
  | EEXIST_PRGDESTROY
  | EELAN3INIT
  | EELAN3CONTROL
  | EELAN3CREATE
  | ESRCH_PRGADDCAP
  | EFAULT_PRGADDCAP
  | EINVAL_SETCAP
  | EFAULT_SETCAP
  | EGETNODEID
  | EGETNODEID_BYHOST
  | EGETHOST_BYNODEID
  | ESRCH_PRGSIGNAL
  | EINVAL_PRGSIGNAL
  | ESLRUMD_PIPE_ERROR_ON_TASK_SPAWN
  | ESLURMD_KILL_TASK_FAILED
  | ESLURMD_INVALID_JOB_CREDENTIAL
  | ESLURMD_CREDENTIAL_REVOKED
  | ESLURMD_CREDENTIAL_EXPIRED
  | ESLURMD_CREDENTIAL_REPLAYED
  | ESLURMD_CREATE_BATCH_DIR_ERROR
  | ESLURMD_MODIFY_BATCH_DIR_ERROR
  | ESLURMD_CREATE_BATCH_SCRIPT_ERROR
  | ESLURMD_MODIFY_BATCH_SCRIPT_ERROR
  | ESLURMD_SETUP_ENVIRONMENT_ERROR
  | ESLURMD_SHARED_MEMORY_ERROR
  | ESLURMD_SET_UID_OR_GID_ERROR
  | ESLURMD_SET_SID_ERROR
  | ESLURMD_CANNOT_SPAWN_IO_THREAD
  | ESLURMD_FORK_FAILED
  | ESLURMD_EXECVE_FAILED
  | ESLURMD_IO_ERROR
  | ESLURMD_PROLOG_FAILED
  | ESLURMD_EPILOG_FAILED
  | ESLURMD_SESSION_KILLED
  | ESCRIPT_CHDIR_FAILED
  | ESCRIPT_OPEN_OUTPUT_FAILED
  | ESCRIPT_NON_ZERO_RETURN
  | SLURM_PROTOCOL_SOCKET_IMPL_ZERO_RECV_LENGTH
  | SLURM_PROTOCOL_SOCKET_IMPL_NEGATIVE_RECV_LENGTH
  | SLURM_PROTOCOL_SOCKET_IMPL_NOT_ALL_DATA_SENT
  | ESLURM_PROTOCOL_INCOMPLETE_PACKET
  | SLURM_PROTOCOL_SOCKET_IMPL_TIMEOUT
  | SLURM_PROTOCOL_SOCKET_ZERO_BYTES_SENT
  | ESLURM_AUTH_CRED_INVALID
  | ESLURM_AUTH_FOPEN_ERROR
  | ESLURM_AUTH_NET_ERROR
  deriving DecidableEq


/-- The error string table `slurm_errtab`, entry by entry in source order.
The first two entries carry the literal numbers `0` and `-1`; every other
entry is keyed by a symbolic constant whose value is `codes` of it. -/
def slurm_errtab (codes : ErrSymbol → Int) : List slurm_errtab_t :=
  slurm_errtab_t.mk (0) "No error" ::
  slurm_errtab_t.mk (-1) "Unspecified error" ::
  slurm_errtab_t.mk (codes ErrSymbol.SLURM_UNEXPECTED_MSG_ERROR)
    "Unexpected message received" ::
  slurm_errtab_t.mk (codes ErrSymbol.SLURM_COMMUNICATIONS_CONNECTION_ERROR)
    "Communication connection failure" ::
  slurm_errtab_t.mk (codes ErrSymbol.SLURM_COMMUNICATIONS_SEND_ERROR)
    "Message send failure" ::
  slurm_errtab_t.mk (codes ErrSymbol.SLURM_COMMUNICATIONS_RECEIVE_ERROR)
    "Message receive failure" ::
  slurm_errtab_t.mk (codes ErrSymbol.SLURM_COMMUNICATIONS_SHUTDOWN_ERROR)
    "Communication shutdown failure" ::
  slurm_errtab_t.mk (codes ErrSymbol.SLURM_PROTOCOL_VERSION_ERROR)
    "Protocol version has changed, re-link your code" ::
  slurm_errtab_t.mk (codes ErrSymbol.SLURM_PROTOCOL_IO_STREAM_VERSION_ERROR)
    "I/O stream version number error" ::
  slurm_errtab_t.mk (codes ErrSymbol.SLURM_PROTOCOL_AUTHENTICATION_ERROR)
    "Protocol authentication error" ::
  slurm_errtab_t.mk (codes ErrSymbol.SLURM_NO_CHANGE_IN_DATA)
    "Data has not changed since time specified" ::
  slurm_errtab_t.mk (codes ErrSymbol.ESLURM_INVALID_PARTITION_NAME)
    "Invalid partition name specified" ::
  slurm_errtab_t.mk (codes ErrSymbol.ESLURM_DEFAULT_PARTITION_NOT_SET)
    "System default partition not set" ::
  slurm_errtab_t.mk (codes ErrSymbol.ESLURM_ACCESS_DENIED)
    "Access denied" ::
  slurm_errtab_t.mk (codes ErrSymbol.ESLURM_JOB_MISSING_REQUIRED_PARTITION_GROUP)
    "User's group not permitted to use this partition" ::
  slurm_errtab_t.mk (codes ErrSymbol.ESLURM_REQUESTED_NODES_NOT_IN_PARTITION)
    "Requested nodes not in this partition" ::
  slurm_errtab_t.mk (codes ErrSymbol.ESLURM_TOO_MANY_REQUESTED_CPUS)
    "More processors requested than permitted" ::
  slurm_errtab_t.mk (codes ErrSymbol.ESLURM_TOO_MANY_REQUESTED_NODES)
    "More nodes requested than permitted" ::
  slurm_errtab_t.mk (codes ErrSymbol.ESLURM_ERROR_ON_DESC_TO_RECORD_COPY)
    "Unable to create job record, try again" ::
  slurm_errtab_t.mk (codes ErrSymbol.ESLURM_JOB_MISSING_SIZE_SPECIFICATION)
    "Job size specification needs to be provided" ::
  slurm_errtab_t.mk (codes ErrSymbol.ESLURM_JOB_SCRIPT_MISSING)
    "Job script not specified" ::
  slurm_errtab_t.mk (codes ErrSymbol.ESLURM_USER_ID_MISSING)
    "User id is missing or invalid" ::
  slurm_errtab_t.mk (codes ErrSymbol.ESLURM_JOB_NAME_TOO_LONG)
    "Job name too long" ::
  slurm_errtab_t.mk (codes ErrSymbol.ESLURM_DUPLICATE_JOB_ID)
    "Duplicate job id" ::
  slurm_errtab_t.mk (codes ErrSymbol.ESLURM_PATHNAME_TOO_LONG)
    "Pathname of a file or directory too long" ::
  slurm_errtab_t.mk (codes ErrSymbol.ESLURM_NOT_TOP_PRIORITY)
    "Immediate execution impossible, higher priority jobs pending" ::
  slurm_errtab_t.mk (codes ErrSymbol.ESLURM_REQUESTED_NODE_CONFIG_UNAVAILABLE)
    "Requested node configuration is not available" ::
  slurm_errtab_t.mk (codes ErrSymbol.ESLURM_REQUESTED_PART_CONFIG_UNAVAILABLE)
    "Requested partition configuration not available now, job queued" ::
  slurm_errtab_t.mk (codes ErrSymbol.ESLURM_NODES_BUSY)
    "Requested nodes are busy" ::
  slurm_errtab_t.mk (codes ErrSymbol.ESLURM_INVALID_JOB_ID)
    "Invalid job id specified" ::
  slurm_errtab_t.mk (codes ErrSymbol.ESLURM_INVALID_NODE_NAME)
    "Invalid node name specified" ::
  slurm_errtab_t.mk (codes ErrSymbol.ESLURM_WRITING_TO_FILE)
    "I/O error writing script/environment to file" ::
  slurm_errtab_t.mk (codes ErrSymbol.ESLURM_TRANSITION_STATE_NO_UPDATE)
    "Job can not be altered now, try again later" ::
  slurm_errtab_t.mk (codes ErrSymbol.ESLURM_ALREADY_DONE)
    "Job/step already completed" ::
  slurm_errtab_t.mk (codes ErrSymbol.ESLURM_INTERCONNECT_FAILURE)
    "Error configuring interconnect" ::
  slurm_errtab_t.mk (codes ErrSymbol.ESLURM_BAD_DIST)
    "Task distribution specification invalid" ::
  slurm_errtab_t.mk (codes ErrSymbol.ESLURM_JOB_PENDING)
    "Job is pending execution" ::
  slurm_errtab_t.mk (codes ErrSymbol.ESLURM_BAD_TASK_COUNT)
    "Task count specification invalid" ::
  slurm_errtab_t.mk (codes ErrSymbol.ENOSLURM)
    "Out of slurm" ::
  slurm_errtab_t.mk (codes ErrSymbol.EBADMAGIC_QSWLIBSTATE)
    "Bad magic in QSW libstate" ::
  slurm_errtab_t.mk (codes ErrSymbol.EBADMAGIC_QSWJOBINFO)
    "Bad magic in QSW jobinfo" ::
  slurm_errtab_t.mk (codes ErrSymbol.EINVAL_PRGCREATE)
    "Program identifier in use or number of CPUs invalid" ::
  slurm_errtab_t.mk (codes ErrSymbol.ECHILD_PRGDESTROY)
    "Processes belonging to this program are still running" ::
  slurm_errtab_t.mk (codes ErrSymbol.EEXIST_PRGDESTROY)
    "Program identifier does not exist" ::
  slurm_errtab_t.mk (codes ErrSymbol.EELAN3INIT)
    "Too many processes using Elan or mapping failure" ::
  slurm_errtab_t.mk (codes ErrSymbol.EELAN3CONTROL)
    "Could not open elan3 control device" ::
  slurm_errtab_t.mk (codes ErrSymbol.EELAN3CREATE)
    "Could not create elan capability" ::
  slurm_errtab_t.mk (codes ErrSymbol.ESRCH_PRGADDCAP)
    "Program does not exist (addcap)" ::
  slurm_errtab_t.mk (codes ErrSymbol.EFAULT_PRGADDCAP)
    "Capability has invalid address (addcap)" ::
  slurm_errtab_t.mk (codes ErrSymbol.EINVAL_SETCAP)
    "Invalid context number (setcap)" ::
  slurm_errtab_t.mk (codes ErrSymbol.EFAULT_SETCAP)
    "Capability has invalid address (setcap)" ::
  slurm_errtab_t.mk (codes ErrSymbol.EGETNODEID)
    "Cannot determine local elan address" ::
  slurm_errtab_t.mk (codes ErrSymbol.EGETNODEID_BYHOST)
    "Cannot translate hostname to elan address" ::
  slurm_errtab_t.mk (codes ErrSymbol.EGETHOST_BYNODEID)
    "Cannot translate elan address to hostname" ::
  slurm_errtab_t.mk (codes ErrSymbol.ESRCH_PRGSIGNAL)
    "No such program identifier" ::
  slurm_errtab_t.mk (codes ErrSymbol.EINVAL_PRGSIGNAL)
    "Invalid signal number" ::
  slurm_errtab_t.mk (codes ErrSymbol.ESLRUMD_PIPE_ERROR_ON_TASK_SPAWN)
    "Pipe error on task spawn" ::
  slurm_errtab_t.mk (codes ErrSymbol.ESLURMD_KILL_TASK_FAILED)
    "Kill task failed" ::
  slurm_errtab_t.mk (codes ErrSymbol.ESLURMD_INVALID_JOB_CREDENTIAL)
    "Invalid job credential" ::
  slurm_errtab_t.mk (codes ErrSymbol.ESLURMD_CREDENTIAL_REVOKED)
    "Job credential revoked" ::
  slurm_errtab_t.mk (codes ErrSymbol.ESLURMD_CREDENTIAL_EXPIRED)
    "Job credential expired" ::
  slurm_errtab_t.mk (codes ErrSymbol.ESLURMD_CREDENTIAL_REPLAYED)
    "Job credential replayed" ::
  slurm_errtab_t.mk (codes ErrSymbol.ESLURMD_CREATE_BATCH_DIR_ERROR)
    "Slurmd could not create a batch directory" ::
  slurm_errtab_t.mk (codes ErrSymbol.ESLURMD_MODIFY_BATCH_DIR_ERROR)
    "Slurmd could not chown or chmod a batch directory" ::
  slurm_errtab_t.mk (codes ErrSymbol.ESLURMD_CREATE_BATCH_SCRIPT_ERROR)
    "Slurmd could not create a batch script" ::
  slurm_errtab_t.mk (codes ErrSymbol.ESLURMD_MODIFY_BATCH_SCRIPT_ERROR)
    "Slurmd could not chown or chmod a batch script" ::
  slurm_errtab_t.mk (codes ErrSymbol.ESLURMD_SETUP_ENVIRONMENT_ERROR)
    "Slurmd could not set up environment for batch job" ::
  slurm_errtab_t.mk (codes ErrSymbol.ESLURMD_SHARED_MEMORY_ERROR)
    "Slurmd shared memory error" ::
  slurm_errtab_t.mk (codes ErrSymbol.ESLURMD_SET_UID_OR_GID_ERROR)
    "Slurmd could not set UID or GID" ::
  slurm_errtab_t.mk (codes ErrSymbol.ESLURMD_SET_SID_ERROR)
    "Slurmd could not set session ID" ::
  slurm_errtab_t.mk (codes ErrSymbol.ESLURMD_CANNOT_SPAWN_IO_THREAD)
    "Slurmd could not spawn I/O thread" ::
  slurm_errtab_t.mk (codes ErrSymbol.ESLURMD_FORK_FAILED)
    "Slurmd could not fork batch job" ::
  slurm_errtab_t.mk (codes ErrSymbol.ESLURMD_EXECVE_FAILED)
    "Slurmd could not execve batch job" ::
  slurm_errtab_t.mk (codes ErrSymbol.ESLURMD_IO_ERROR)
    "Slurmd could not connect IO" ::
  slurm_errtab_t.mk (codes ErrSymbol.ESLURMD_PROLOG_FAILED)
    "Job prolog failed" ::
  slurm_errtab_t.mk (codes ErrSymbol.ESLURMD_EPILOG_FAILED)
    "Job epilog failed" ::
  slurm_errtab_t.mk (codes ErrSymbol.ESLURMD_SESSION_KILLED)
    "Session manager killed" ::
  slurm_errtab_t.mk (codes ErrSymbol.ESCRIPT_CHDIR_FAILED)
    "unable to change directory to work directory" ::
  slurm_errtab_t.mk (codes ErrSymbol.ESCRIPT_OPEN_OUTPUT_FAILED)
    "cound not open output file" ::
  slurm_errtab_t.mk (codes ErrSymbol.ESCRIPT_NON_ZERO_RETURN)
    "Script terminated with non-zero exit code" ::
  slurm_errtab_t.mk (codes ErrSymbol.SLURM_PROTOCOL_SOCKET_IMPL_ZERO_RECV_LENGTH)
    "Received zero length message" ::
  slurm_errtab_t.mk (codes ErrSymbol.SLURM_PROTOCOL_SOCKET_IMPL_NEGATIVE_RECV_LENGTH)
    "Received message length < 0" ::
  slurm_errtab_t.mk (codes ErrSymbol.SLURM_PROTOCOL_SOCKET_IMPL_NOT_ALL_DATA_SENT)
    "Failed to send entire message" ::
  slurm_errtab_t.mk (codes ErrSymbol.ESLURM_PROTOCOL_INCOMPLETE_PACKET)
    "Header lengths are longer than data received" ::
  slurm_errtab_t.mk (codes ErrSymbol.SLURM_PROTOCOL_SOCKET_IMPL_TIMEOUT)
    "Socket timed out on send/recv operation" ::
  slurm_errtab_t.mk (codes ErrSymbol.SLURM_PROTOCOL_SOCKET_ZERO_BYTES_SENT)
    "Zero Bytes were transmitted or received" ::
  slurm_errtab_t.mk (codes ErrSymbol.ESLURM_AUTH_CRED_INVALID)
    "Invalid authentication credential" ::
  slurm_errtab_t.mk (codes ErrSymbol.ESLURM_AUTH_FOPEN_ERROR)
    "Failed to open authentication public key" ::
  slurm_errtab_t.mk (codes ErrSymbol.ESLURM_AUTH_NET_ERROR)
    "Failed to connect to authentication agent" ::
  []

/-- The search loop of `_lookup_slurm_api_errtab` over a table `tab`:
entries are visited in table order, the first entry whose `xe_number`
equals `errnum` supplies the result (`break`), and `none` (the C `NULL`)
is returned when the loop runs off the end of the table. -/
def _lookup_slurm_api_errtab (tab : List slurm_errtab_t) (errnum : Int) : Option String :=
  match tab with
  | [] => none
  | e :: rest =>
    if e.xe_number = errnum then some e.xe_message
    else _lookup_slurm_api_errtab rest errnum

/-- The body of `slurm_strerror` over a table `tab`:
`res ? res : strerror(errnum)`. -/
def slurm_strerror_tab (tab : List slurm_errtab_t) (strerror : Int → String)
    (errnum : Int) : String :=
  match _lookup_slurm_api_errtab tab errnum with
  | some res => res
  | none => strerror errnum

/-- The function `slurm_strerror`: the string associated with an error
number, from `slurm_errtab` when an entry matches and from the libc
`strerror` otherwise. -/
def slurm_strerror (codes : ErrSymbol → Int) (strerror : Int → String)
    (errnum : Int) : String :=
  slurm_strerror_tab (slurm_errtab codes) strerror errnum

/-- The part of the process state that the functions of this file read or
write: the libc `errno` slot and the text handed so far to `stderr`. -/
structure ProcState where
  errno : Int
  stderr : String
  deriving DecidableEq

/-- The function `slurm_get_errno`: `return errno;`. -/
def slurm_get_errno (st : ProcState) : Int :=
  st.errno

/-- The function `slurm_seterrno`: `errno = errnum;` (both branches of the
`#ifdef __set_errno` store `errnum` into `errno`). -/
def slurm_seterrno (errnum : Int) (st : ProcState) : ProcState :=
  { st with errno := errnum }

/-- The libc call `fprintf(stderr, ...)` as far as this file can observe
it.  The formatted text is handed to `stderr`.  The call may store an error
number into `errno`, as a failed write does; `w` is what it stores: `none`
when the call leaves `errno` as it was, `some e` when it stores `e`. -/
def fprintf_stderr (w : Option Int) (text : String) (st : ProcState) : ProcState :=
  { errno := match w with
      | none => st.errno
      | some e => e,
    stderr := st.stderr ++ text }

/-- The body of `slurm_perror` over a table `tab`:
`fprintf(stderr, "%s: %s\n", msg, slurm_strerror(errno));`.  The argument
`slurm_strerror(errno)` is evaluated before `fprintf` is entered, so the text
is built from the value of `errno` before the write; the source does not save
or restore `errno` around the call. -/
def slurm_perror_tab (tab : List slurm_errtab_t) (strerror : Int → String)
    (w : Option Int) (msg : String) (st : ProcState) : ProcState :=
  fprintf_stderr w (msg ++ ": " ++ slurm_strerror_tab tab strerror st.errno ++ "\n") st

/-- The function `slurm_perror`, on the table `slurm_errtab`. -/
def slurm_perror (codes : ErrSymbol → Int) (strerror : Int → String)
    (w : Option Int) (msg : String) (st : ProcState) : ProcState :=
  slurm_perror_tab (slurm_errtab codes) strerror w msg st

/-- A call of one of the four exported functions, with its argument; a
call of `slurm_perror` also records what its `fprintf` stores into `errno`
(see `fprintf_stderr`). -/
inductive Call where
  | strerror (errnum : Int)
  | get_errno
  | seterrno (errnum : Int)
  | perror (msg : String) (w : Option Int)
  deriving DecidableEq

/-- The value a call returns: a string, an `int`, or nothing. -/
inductive Ret where
  | text (s : String)
  | code (n : Int)
  | void
  deriving DecidableEq

/-- Executes one call on a process state: the returned value and the state
after the call. -/
def call (codes : ErrSymbol → Int) (strerror : Int → String) :
    Call → ProcState → Ret × ProcState
  | .strerror errnum, st => (.text (slurm_strerror codes strerror errnum), st)
  | .get_errno, st => (.code (slurm_get_errno st), st)
  | .seterrno errnum, st => (.void, slurm_seterrno errnum st)
  | .perror msg w, st => (.void, slurm_perror codes strerror w msg st)

/-- Executes a sequence of calls, first to last, and gives the final state. -/
def run_calls (codes : ErrSymbol → Int) (strerror : Int → String) :
    List Call → ProcState → ProcState
  | [], st => st
  | c :: cs, st => run_calls codes strerror cs (call codes strerror c st).2

/-- The memory the functions of this file can reach: the static array
`slurm_errtab`, which the source does not declare `const`, and the process
state (`errno` and `stderr`). -/
structure Memory where
  errtab : List slurm_errtab_t
  proc : ProcState
  deriving DecidableEq

/-- The memory at program start: the array holds its initialiser. -/
def initial_memory (codes : ErrSymbol → Int) (st : ProcState) : Memory :=
  { errtab := slurm_errtab codes, proc := st }

/-- Executes one call on a memory.  `slurm_strerror` and `slurm_perror` read
the table from the memory; no function of the file assigns to the array, so
every call hands the array on as it found it. -/
def exec (strerror : Int → String) : Call → Memory → Ret × Memory
  | .strerror errnum, m => (.text (slurm_strerror_tab m.errtab strerror errnum), m)
  | .get_errno, m => (.code (slurm_get_errno m.proc), m)
  | .seterrno errnum, m => (.void, { m with proc := slurm_seterrno errnum m.proc })
  | .perror msg w, m =>
    (.void, { m with proc := slurm_perror_tab m.errtab strerror w msg m.proc })

/-- Executes a sequence of calls on a memory, first to last. -/
def run_exec (strerror : Int → String) : List Call → Memory → Memory
  | [], m => m
  | c :: cs, m => run_exec strerror cs (exec strerror c m).2

/-- The spec's `describe`, in its words: the message of the first entry of
the table whose code equals the input, in table order; when no entry matches,
the result of the platform's resolver. -/
def describe_spec (tab : List slurm_errtab_t) (strerror : Int → String) (code : Int) : String :=
  match tab.find? (fun e => decide (e.xe_number = code)) with
  | some e => e.xe_message
  | none => strerror code

/-- A sample numbering of the symbolic constants, used to instantiate the
theorems: the constants are numbered consecutively from 1000 in table
order. -/
def sample_codes (s : ErrSymbol) : Int :=
  1000 + (s.toCtorIdx : Int)

/-- A sample platform resolver, used to instantiate the theorems. -/
def sample_strerror (n : Int) : String :=
  if n = 2 then "No such file or directory" else "Unknown error"

/-- A second sample numbering for the application scenario: the constant
`ESLURM_INVALID_JOB_ID` has the value 1001 and the other constants are
numbered consecutively from 2000 in table order. -/
def scenario_codes (s : ErrSymbol) : Int :=
  if s = ErrSymbol.ESLURM_INVALID_JOB_ID then 1001 else 2000 + (s.toCtorIdx : Int)

/-- The `for` loop of `_lookup_slurm_api_errtab` written with the index `i`
of the source, started at index `i`: while `i` is below the number of
entries, the entry at position `i` is read; a match ends the loop with its
message (`break`), a mismatch continues at `i + 1`; when `i` reaches the end
of the table the result is `none` (the C `NULL`).  The second component
records the table positions the loop reads, in the order it reads them. -/
def lookup_loop (tab : List slurm_errtab_t) (errnum : Int) (i : Nat) :
    Option String × List Nat :=
  if h : i < tab.length then
    if (tab.get ⟨i, h⟩).xe_number = errnum then
      (some (tab.get ⟨i, h⟩).xe_message, [i])
    else
      ((lookup_loop tab errnum (i + 1)).1, i :: (lookup_loop tab errnum (i + 1)).2)
  else
    (none, [])
termination_by tab.length - i

/-- Modelled from the spec: the numeric values that `slurm/slurm_errno.h`,
which is not among the sources, gives to the symbolic constants.  The spec
names no values; it asks that every application code be unique within the
table and, by convention, numerically at or above 1000. -/
def errno_header_convention (codes : ErrSymbol → Int) : Prop :=
  (∀ s t, codes s = codes t → s = t) ∧ ∀ s, 1000 ≤ codes s

/-! ## The linear search -/

theorem lookup_cons (e : slurm_errtab_t) (rest : List slurm_errtab_t) (c : Int) :
    _lookup_slurm_api_errtab (e :: rest) c
      = if e.xe_number = c then some e.xe_message else _lookup_slurm_api_errtab rest c := by
  simp [_lookup_slurm_api_errtab]

/-- The search returns the message of the head of the sub-sequence of
entries whose number is `c`. -/
theorem lookup_eq_head_filter (tab : List slurm_errtab_t) (c : Int) :
    _lookup_slurm_api_errtab tab c
      = ((tab.filter (fun x => decide (x.xe_number = c))).head?).map slurm_errtab_t.xe_message := by
  induction tab with
  | nil => simp [_lookup_slurm_api_errtab]
  | cons e rest ih =>
    rw [lookup_cons]
    by_cases h : e.xe_number = c
    · simp [h]
    · simp [h, ih]

/-- The search fails exactly when no entry carries the number. -/
theorem lookup_eq_none_iff (tab : List slurm_errtab_t) (c : Int) :
    _lookup_slurm_api_errtab tab c = none ↔ ∀ e ∈ tab, e.xe_number ≠ c := by
  induction tab with
  | nil => simp [_lookup_slurm_api_errtab]
  | cons e rest ih =>
    rw [lookup_cons]
    by_cases h : e.xe_number = c
    · simp [h]
    · simp [h, ih]

/-- When the search fails, `slurm_strerror` is the platform resolver. -/
theorem strerror_tab_of_absent (tab : List slurm_errtab_t) (strerror : Int → String) (c : Int)
    (h : ∀ e ∈ tab, e.xe_number ≠ c) : slurm_strerror_tab tab strerror c = strerror c := by
  have hn := (lookup_eq_none_iff tab c).mpr h
  simp [slurm_strerror_tab, hn]

/-- Every number of the table is `0`, `-1` or the value of a symbolic constant. -/
theorem errtab_number_cases (codes : ErrSymbol → Int) :
    ∀ e ∈ slurm_errtab codes,
      e.xe_number = 0 ∨ e.xe_number = -1 ∨ ∃ s, e.xe_number = codes s := by
  intro e he
  simp only [slurm_errtab, List.mem_cons, List.not_mem_nil, or_false] at he
  repeat (rcases he with rfl | he; first | exact Or.inl rfl | exact Or.inr (Or.inl rfl) | exact Or.inr (Or.inr ⟨_, rfl⟩))

/-- A successful search returns the message of an entry with that number. -/
theorem lookup_some_mem (tab : List slurm_errtab_t) (c : Int) (m : String)
    (h : _lookup_slurm_api_errtab tab c = some m) :
    ∃ e ∈ tab, e.xe_number = c ∧ e.xe_message = m := by
  induction tab with
  | nil => simp [_lookup_slurm_api_errtab] at h
  | cons e rest ih =>
    rw [lookup_cons] at h
    by_cases he : e.xe_number = c
    · simp only [he, if_true, Option.some.injEq] at h
      exact ⟨e, List.mem_cons_self _ _, he, h⟩
    · simp only [he, if_false] at h
      obtain ⟨x, hx, hxc, hxm⟩ := ih h
      exact ⟨x, List.mem_cons_of_mem _ hx, hxc, hxm⟩

/-- The search returns the message of the entry at the least index that
carries the number. -/
theorem lookup_at_least_index (tab : List slurm_errtab_t) (c : Int) :
    (∃ e ∈ tab, e.xe_number = c) →
    ∃ i, ∃ hi : i < tab.length,
      (tab.get ⟨i, hi⟩).xe_number = c ∧
      (∀ j, ∀ hj : j < tab.length, j < i → (tab.get ⟨j, hj⟩).xe_number ≠ c) ∧
      _lookup_slurm_api_errtab tab c = some (tab.get ⟨i, hi⟩).xe_message := by
  induction tab with
  | nil => intro h; simp at h
  | cons e rest ih =>
    intro h
    by_cases he : e.xe_number = c
    · refine ⟨0, by simp, ?_, ?_, ?_⟩
      · simpa using he
      · intro j hj hlt
        omega
      · simp [lookup_cons, he]
    · have h2 : ∃ x ∈ rest, x.xe_number = c := by
        obtain ⟨x, hx, hxc⟩ := h
        rcases List.mem_cons.mp hx with rfl | hx2
        · exact absurd hxc he
        · exact ⟨x, hx2, hxc⟩
      obtain ⟨i, hi, h3, h4, h5⟩ := ih h2
      refine ⟨i + 1, by simp; omega, ?_, ?_, ?_⟩
      · simpa using h3
      · intro j hj hlt
        cases j with
        | zero => simpa using he
        | succ k =>
          have hk : k < rest.length := by simpa using hj
          simpa using h4 k hk (by omega)
      · simp [lookup_cons, he, h5]

/-- No message of the table is the empty string. -/
theorem errtab_messages_nonempty (codes : ErrSymbol → Int) :
    ∀ e ∈ slurm_errtab codes, e.xe_message ≠ "" := by
  intro e he
  simp only [slurm_errtab, List.mem_cons, List.not_mem_nil, or_false] at he
  repeat (rcases he with rfl | he; simp)

/-- The result of `slurm_strerror` over a table is the message of an entry
with that number, or the platform resolver's text when there is none. -/
theorem strerror_tab_cases (tab : List slurm_errtab_t) (strerror : Int → String) (c : Int) :
    (∃ e ∈ tab, e.xe_number = c ∧ slurm_strerror_tab tab strerror c = e.xe_message) ∨
    ((∀ e ∈ tab, e.xe_number ≠ c) ∧ slurm_strerror_tab tab strerror c = strerror c) := by
  cases hl : _lookup_slurm_api_errtab tab c with
  | none =>
    right
    exact ⟨(lookup_eq_none_iff tab c).mp hl, by simp [slurm_strerror_tab, hl]⟩
  | some m =>
    left
    obtain ⟨e, he, hc, hm⟩ := lookup_some_mem tab c m hl
    exact ⟨e, he, hc, by simp [slurm_strerror_tab, hl, hm]⟩

/-! ## Claims -/

/-- C1. For every integer `c` that is the number of exactly one entry `e` of
`slurm_errtab`, `slurm_strerror c` is that entry's message, in every process
state and after every sequence of earlier calls. -/
theorem slurm_strerror_registered_once (codes : ErrSymbol → Int) (strerror : Int → String)
    (c : Int) (e : slurm_errtab_t) (calls : List Call) (st : ProcState)
    (h : (slurm_errtab codes).filter (fun x => decide (x.xe_number = c)) = [e]) :
    slurm_strerror codes strerror c = e.xe_message ∧
    (call codes strerror (Call.strerror c) (run_calls codes strerror calls st)).1
      = Ret.text e.xe_message := by
  have hs : slurm_strerror codes strerror c = e.xe_message := by
    simp [slurm_strerror, slurm_strerror_tab, lookup_eq_head_filter, h]
  exact ⟨hs, by simp [call, hs]⟩

theorem slurm_strerror_registered_once_witness :
    (slurm_errtab sample_codes).filter
        (fun x => decide (x.xe_number = sample_codes ErrSymbol.ESLURM_INVALID_JOB_ID))
      = [slurm_errtab_t.mk 1027 "Invalid job id specified"] ∧
    (slurm_strerror sample_codes sample_strerror (sample_codes ErrSymbol.ESLURM_INVALID_JOB_ID)
        = (slurm_errtab_t.mk 1027 "Invalid job id specified").xe_message ∧
     (call sample_codes sample_strerror
          (Call.strerror (sample_codes ErrSymbol.ESLURM_INVALID_JOB_ID))
          (run_calls sample_codes sample_strerror
            [Call.seterrno 5, Call.perror "x" (some 9)] (ProcState.mk 0 ""))).1
        = Ret.text (slurm_errtab_t.mk 1027 "Invalid job id specified").xe_message) :=
  ⟨by decide,
   slurm_strerror_registered_once sample_codes sample_strerror _ _ _ _ (by decide)⟩

/-- C2. For every integer `c` that is the number of no entry of
`slurm_errtab`, the table search finds nothing and `slurm_strerror c` is
exactly `strerror c`, for an arbitrary platform resolver `strerror`. -/
theorem slurm_strerror_unregistered (codes : ErrSymbol → Int) (strerror : Int → String)
    (c : Int) (h : ∀ e ∈ slurm_errtab codes, e.xe_number ≠ c) :
    _lookup_slurm_api_errtab (slurm_errtab codes) c = none ∧
    slurm_strerror codes strerror c = strerror c :=
  ⟨(lookup_eq_none_iff _ c).mpr h, strerror_tab_of_absent _ strerror c h⟩

theorem slurm_strerror_unregistered_witness :
    (∀ e ∈ slurm_errtab sample_codes, e.xe_number ≠ 13) ∧
    (_lookup_slurm_api_errtab (slurm_errtab sample_codes) 13 = none ∧
     slurm_strerror sample_codes sample_strerror 13 = sample_strerror 13) :=
  ⟨by decide, slurm_strerror_unregistered sample_codes sample_strerror 13 (by decide)⟩

/-- C3. `slurm_strerror 0` is "No error" and `slurm_strerror (-1)` is
"Unspecified error", for every platform resolver and every numbering of the
symbolic constants. -/
theorem slurm_strerror_sentinels (codes : ErrSymbol → Int) (strerror : Int → String) :
    slurm_strerror codes strerror 0 = "No error" ∧
    slurm_strerror codes strerror (-1) = "Unspecified error" :=
  ⟨rfl, rfl⟩

/-- C4. First match wins: in every table in which some entry carries the
number `c`, the search returns the message of the entry at the least index
whose number is `c`. -/
theorem lookup_first_match_wins (tab : List slurm_errtab_t) (c : Int)
    (h : ∃ e ∈ tab, e.xe_number = c) :
    ∃ i, ∃ hi : i < tab.length,
      (tab.get ⟨i, hi⟩).xe_number = c ∧
      (∀ j, ∀ hj : j < tab.length, j < i → (tab.get ⟨j, hj⟩).xe_number ≠ c) ∧
      _lookup_slurm_api_errtab tab c = some (tab.get ⟨i, hi⟩).xe_message :=
  lookup_at_least_index tab c h

theorem lookup_first_match_wins_witness :
    (∃ e ∈ [slurm_errtab_t.mk 5 "five", slurm_errtab_t.mk 7 "first", slurm_errtab_t.mk 7 "second"],
        e.xe_number = 7) ∧
    (∃ i, ∃ hi : i < [slurm_errtab_t.mk 5 "five", slurm_errtab_t.mk 7 "first",
          slurm_errtab_t.mk 7 "second"].length,
      ([slurm_errtab_t.mk 5 "five", slurm_errtab_t.mk 7 "first",
          slurm_errtab_t.mk 7 "second"].get ⟨i, hi⟩).xe_number = 7 ∧
      (∀ j, ∀ hj : j < [slurm_errtab_t.mk 5 "five", slurm_errtab_t.mk 7 "first",
          slurm_errtab_t.mk 7 "second"].length, j < i →
        ([slurm_errtab_t.mk 5 "five", slurm_errtab_t.mk 7 "first",
          slurm_errtab_t.mk 7 "second"].get ⟨j, hj⟩).xe_number ≠ 7) ∧
      _lookup_slurm_api_errtab [slurm_errtab_t.mk 5 "five", slurm_errtab_t.mk 7 "first",
          slurm_errtab_t.mk 7 "second"] 7
        = some ([slurm_errtab_t.mk 5 "five", slurm_errtab_t.mk 7 "first",
          slurm_errtab_t.mk 7 "second"].get ⟨i, hi⟩).xe_message) :=
  ⟨⟨slurm_errtab_t.mk 7 "second", by decide, rfl⟩,
   lookup_first_match_wins _ 7 ⟨slurm_errtab_t.mk 7 "second", by decide, rfl⟩⟩

/-- C5. Set/get round trip: after `slurm_seterrno c`, `slurm_get_errno`
returns `c`, for every integer `c` and every earlier state; after
`slurm_seterrno a` and then `slurm_seterrno b` it returns `b`. -/
theorem seterrno_get_errno_roundtrip (codes : ErrSymbol → Int) (strerror : Int → String)
    (a b c : Int) (st : ProcState) :
    slurm_get_errno (slurm_seterrno c st) = c ∧
    slurm_get_errno (slurm_seterrno b (slurm_seterrno a st)) = b ∧
    (call codes strerror Call.get_errno
        (run_calls codes strerror [Call.seterrno a, Call.seterrno b] st)).1 = Ret.code b :=
  ⟨rfl, rfl, rfl⟩

/-- C6. For every label and every process state, and whatever the write
does to `errno`, `slurm_perror label` hands to `stderr` exactly the label, a
colon and a blank, the text `slurm_strerror` gives for the current `errno`,
and a newline, and nothing else; when `errno` is 0 the text is the label
followed by ": No error" and a newline. -/
theorem slurm_perror_output (codes : ErrSymbol → Int) (strerror : Int → String)
    (w : Option Int) (label out : String) (st : ProcState) :
    (slurm_perror codes strerror w label st).stderr
      = st.stderr ++ (label ++ ": " ++ slurm_strerror codes strerror (slurm_get_errno st) ++ "\n") ∧
    (slurm_perror codes strerror w label (ProcState.mk 0 out)).stderr
      = out ++ (label ++ ": No error\n") := by
  refine ⟨rfl, ?_⟩
  have h0 : slurm_strerror_tab (slurm_errtab codes) strerror 0 = "No error" := rfl
  simp only [slurm_perror, slurm_perror_tab, fprintf_stderr, h0, String.append_assoc]
  rfl

/-- C7. Application-code scenario: when `ESLURM_INVALID_JOB_ID` has the
value 1001 and the table registers 1001 with no other message, then after
`slurm_seterrno 1001` the call `slurm_get_errno` returns 1001,
`slurm_strerror` of it is "Invalid job id specified", and
`slurm_perror "submit"` appends "submit: Invalid job id specified" and a
newline to `stderr`, whatever the write does to `errno`. -/
theorem scenario_invalid_job_id (codes : ErrSymbol → Int) (strerror : Int → String)
    (w : Option Int) (st : ProcState)
    (h1 : codes ErrSymbol.ESLURM_INVALID_JOB_ID = 1001)
    (h2 : ∀ e ∈ slurm_errtab codes, e.xe_number = 1001 →
      e.xe_message = "Invalid job id specified") :
    slurm_get_errno (slurm_seterrno 1001 st) = 1001 ∧
    slurm_strerror codes strerror (slurm_get_errno (slurm_seterrno 1001 st))
      = "Invalid job id specified" ∧
    (slurm_perror codes strerror w "submit" (slurm_seterrno 1001 st)).stderr
      = st.stderr ++ "submit: Invalid job id specified\n" := by
  have hmem : slurm_errtab_t.mk (codes ErrSymbol.ESLURM_INVALID_JOB_ID)
      "Invalid job id specified" ∈ slurm_errtab codes := by
    simp [slurm_errtab]
  have hs : slurm_strerror codes strerror 1001 = "Invalid job id specified" := by
    rcases strerror_tab_cases (slurm_errtab codes) strerror 1001 with
      ⟨e, he, hc, hm⟩ | ⟨hno, _⟩
    · rw [slurm_strerror, hm]
      exact h2 e he hc
    · exact absurd h1 (hno _ hmem)
  refine ⟨rfl, hs, ?_⟩
  show st.stderr ++ ("submit" ++ ": " ++ slurm_strerror codes strerror 1001 ++ "\n") = _
  rw [hs]
  rfl

theorem scenario_invalid_job_id_witness :
    scenario_codes ErrSymbol.ESLURM_INVALID_JOB_ID = 1001 ∧
    (∀ e ∈ slurm_errtab scenario_codes, e.xe_number = 1001 →
      e.xe_message = "Invalid job id specified") ∧
    (slurm_get_errno (slurm_seterrno 1001 (ProcState.mk 0 "")) = 1001 ∧
     slurm_strerror scenario_codes sample_strerror
        (slurm_get_errno (slurm_seterrno 1001 (ProcState.mk 0 "")))
      = "Invalid job id specified" ∧
     (slurm_perror scenario_codes sample_strerror (some 9) "submit"
        (slurm_seterrno 1001 (ProcState.mk 0 ""))).stderr
      = (ProcState.mk 0 "").stderr ++ "submit: Invalid job id specified\n") :=
  ⟨by decide, by decide,
   scenario_invalid_job_id scenario_codes sample_strerror (some 9) (ProcState.mk 0 "")
     (by decide) (by decide)⟩

/-- C8. Platform-code scenario: when no symbolic constant has the value 2,
no entry of `slurm_errtab` carries the number 2, the table search for 2
finds nothing, and after `slurm_seterrno 2` the text
`slurm_strerror (slurm_get_errno ())` is the platform resolver's
`strerror 2`. -/
theorem scenario_platform_code_two (codes : ErrSymbol → Int) (strerror : Int → String)
    (st : ProcState) (h : ∀ s, codes s ≠ 2) :
    (∀ e ∈ slurm_errtab codes, e.xe_number ≠ 2) ∧
    _lookup_slurm_api_errtab (slurm_errtab codes) (slurm_get_errno (slurm_seterrno 2 st)) = none ∧
    slurm_strerror codes strerror (slurm_get_errno (slurm_seterrno 2 st)) = strerror 2 := by
  have hno : ∀ e ∈ slurm_errtab codes, e.xe_number ≠ 2 := by
    intro e he
    rcases errtab_number_cases codes e he with h0 | h1 | ⟨s, hs⟩
    · rw [h0]; decide
    · rw [h1]; decide
    · rw [hs]; exact h s
  exact ⟨hno, (lookup_eq_none_iff _ 2).mpr hno, strerror_tab_of_absent _ strerror 2 hno⟩

theorem scenario_platform_code_two_witness :
    (∀ s, sample_codes s ≠ 2) ∧
    ((∀ e ∈ slurm_errtab sample_codes, e.xe_number ≠ 2) ∧
     _lookup_slurm_api_errtab (slurm_errtab sample_codes)
        (slurm_get_errno (slurm_seterrno 2 (ProcState.mk 0 ""))) = none ∧
     slurm_strerror sample_codes sample_strerror
        (slurm_get_errno (slurm_seterrno 2 (ProcState.mk 0 ""))) = sample_strerror 2) :=
  ⟨by intro s; cases s <;> decide,
   scenario_platform_code_two sample_codes sample_strerror (ProcState.mk 0 "")
     (by intro s; cases s <;> decide)⟩

/-- C9. `slurm_strerror` has no failure mode: when the platform resolver
gives a non-empty text for every integer, `slurm_strerror c` is a non-empty
text for every integer `c` (a text, never the `NULL` of the table search);
every message stored in `slurm_errtab` is non-empty; and the description
that `slurm_perror` prints is never empty. -/
theorem slurm_strerror_nonempty (codes : ErrSymbol → Int) (strerror : Int → String)
    (h : ∀ n, strerror n ≠ "") :
    (∀ c, slurm_strerror codes strerror c ≠ "") ∧
    (∀ e ∈ slurm_errtab codes, e.xe_message ≠ "") ∧
    (∀ w label st, ∃ d, d ≠ "" ∧
      (slurm_perror codes strerror w label st).stderr
        = st.stderr ++ (label ++ ": " ++ d ++ "\n")) := by
  have hs : ∀ c, slurm_strerror codes strerror c ≠ "" := by
    intro c
    rcases strerror_tab_cases (slurm_errtab codes) strerror c with
      ⟨e, he, _, hm⟩ | ⟨_, hm⟩
    · rw [slurm_strerror, hm]
      exact errtab_messages_nonempty codes e he
    · rw [slurm_strerror, hm]
      exact h c
  exact ⟨hs, errtab_messages_nonempty codes, fun _ label st => ⟨_, hs st.errno, rfl⟩⟩

theorem slurm_strerror_nonempty_witness :
    (∀ n, sample_strerror n ≠ "") ∧
    ((∀ c, slurm_strerror sample_codes sample_strerror c ≠ "") ∧
     (∀ e ∈ slurm_errtab sample_codes, e.xe_message ≠ "") ∧
     (∀ w label st, ∃ d, d ≠ "" ∧
       (slurm_perror sample_codes sample_strerror w label st).stderr
         = st.stderr ++ (label ++ ": " ++ d ++ "\n"))) :=
  ⟨by intro n; unfold sample_strerror; split <;> decide,
   slurm_strerror_nonempty sample_codes sample_strerror
     (by intro n; unfold sample_strerror; split <;> decide)⟩

/-- C10, as stated, fails.  The number 0 is below 1000 and `slurm_strerror 0`
is the table message "No error", not the platform resolver's text for 0; the
number 5000 is at or above 1000, no entry carries it under the sample
numbering, and `slurm_strerror 5000` is the platform resolver's text, which
is the message of no entry of the table. -/
theorem threshold_partition_counterexample :
    ¬ ((0 : Int) < 1000 →
        slurm_strerror sample_codes sample_strerror 0 = sample_strerror 0) ∧
    ¬ ((1000 : Int) ≤ 5000 →
        ∃ e ∈ slurm_errtab sample_codes,
          slurm_strerror sample_codes sample_strerror 5000 = e.xe_message) := by
  constructor
  · intro h
    exact absurd (h (by decide)) (by decide)
  · intro h
    exact absurd (h (by decide)) (by decide)

/-- C10, amended.  When every symbolic constant has a value at or above
1000: for every integer `c` below 1000 other than 0 and -1,
`slurm_strerror c` is the platform resolver's `strerror c`; for every integer
`c` at or above 1000 that is the number of some entry, `slurm_strerror c` is
the message of an entry of `slurm_errtab` with the number `c`; and for every
integer `c` at or above 1000 that is the number of no entry it is
`strerror c`. -/
theorem threshold_partition_amended (codes : ErrSymbol → Int) (strerror : Int → String)
    (hc : ∀ s, 1000 ≤ codes s) :
    (∀ c : Int, c < 1000 → c ≠ 0 → c ≠ -1 → slurm_strerror codes strerror c = strerror c) ∧
    (∀ c : Int, 1000 ≤ c → (∃ e ∈ slurm_errtab codes, e.xe_number = c) →
      ∃ e ∈ slurm_errtab codes, e.xe_number = c ∧
        slurm_strerror codes strerror c = e.xe_message) ∧
    (∀ c : Int, 1000 ≤ c → (∀ e ∈ slurm_errtab codes, e.xe_number ≠ c) →
      slurm_strerror codes strerror c = strerror c) := by
  refine ⟨?_, ?_, ?_⟩
  · intro c hlt h0 h1
    apply strerror_tab_of_absent
    intro e he
    rcases errtab_number_cases codes e he with e0 | e1 | ⟨s, hs⟩
    · rw [e0]; exact fun hh => h0 hh.symm
    · rw [e1]; exact fun hh => h1 hh.symm
    · have := hc s
      rw [hs]; omega
  · intro c _ hex
    rcases strerror_tab_cases (slurm_errtab codes) strerror c with
      ⟨e, he, hn, hm⟩ | ⟨hno, _⟩
    · exact ⟨e, he, hn, hm⟩
    · obtain ⟨x, hx, hxc⟩ := hex
      exact absurd hxc (hno x hx)
  · intro c _ hno
    exact strerror_tab_of_absent _ strerror c hno

theorem threshold_partition_amended_witness :
    (∀ s, 1000 ≤ sample_codes s) ∧
    ((∀ c : Int, c < 1000 → c ≠ 0 → c ≠ -1 →
        slurm_strerror sample_codes sample_strerror c = sample_strerror c) ∧
     (∀ c : Int, 1000 ≤ c → (∃ e ∈ slurm_errtab sample_codes, e.xe_number = c) →
        ∃ e ∈ slurm_errtab sample_codes, e.xe_number = c ∧
          slurm_strerror sample_codes sample_strerror c = e.xe_message) ∧
     (∀ c : Int, 1000 ≤ c → (∀ e ∈ slurm_errtab sample_codes, e.xe_number ≠ c) →
        slurm_strerror sample_codes sample_strerror c = sample_strerror c)) :=
  ⟨by intro s; cases s <;> decide,
   threshold_partition_amended sample_codes sample_strerror
     (by intro s; cases s <;> decide)⟩

/-! ## The registry invariant -/

/-- The sample numbering follows the header convention. -/
theorem sample_codes_convention : errno_header_convention sample_codes := by
  constructor
  · intro s t h
    have h2 : s.toCtorIdx = t.toCtorIdx := by
      unfold sample_codes at h
      omega
    have h3 := congrArg ErrSymbol.ofNat h2
    simpa [ErrSymbol.ofNat_toCtorIdx] using h3
  · intro s
    unfold sample_codes
    omega

/-- Under the header convention no two entries of the table carry the same
number. -/
theorem errtab_numbers_nodup (codes : ErrSymbol → Int) (h : errno_header_convention codes) :
    ((slurm_errtab codes).map slurm_errtab_t.xe_number).Nodup := by
  obtain ⟨hinj, hge⟩ := h
  have heq : ∀ s t, codes s = codes t ↔ s = t :=
    fun s t => ⟨hinj s t, fun hst => by rw [hst]⟩
  have h0 : ∀ s, ¬ (0 : Int) = codes s := fun s hs => by
    have := hge s
    omega
  have h1 : ∀ s, ¬ (-1 : Int) = codes s := fun s hs => by
    have := hge s
    omega
  simp [slurm_errtab, heq, h0, h1]

/-- In a table without repeated numbers, the number of each entry is the
number of exactly one entry. -/
theorem countP_number_eq_one (tab : List slurm_errtab_t)
    (hnd : (tab.map slurm_errtab_t.xe_number).Nodup) (e : slurm_errtab_t) (he : e ∈ tab) :
    tab.countP (fun x => decide (x.xe_number = e.xe_number)) = 1 := by
  induction tab with
  | nil => simp at he
  | cons a rest ih =>
    rw [List.map_cons, List.nodup_cons] at hnd
    obtain ⟨hna, hrest⟩ := hnd
    rcases List.mem_cons.mp he with rfl | hin
    · have hz : rest.countP (fun x => decide (x.xe_number = e.xe_number)) = 0 := by
        rw [List.countP_eq_zero]
        intro x hx hxe
        exact hna (List.mem_map.mpr ⟨x, hx, by simpa using hxe⟩)
      simp [List.countP_cons, hz]
    · have hne : a.xe_number ≠ e.xe_number := by
        intro hae
        exact hna (List.mem_map.mpr ⟨e, hin, hae.symm⟩)
      simp [List.countP_cons, hne, ih hrest hin]

/-! ## The indexed loop -/

/-- The indexed loop started at `i` returns what the list search returns on
the entries from position `i` on. -/
theorem lookup_loop_result (tab : List slurm_errtab_t) (c : Int) :
    ∀ n i, tab.length - i = n →
      (lookup_loop tab c i).1 = _lookup_slurm_api_errtab (tab.drop i) c := by
  intro n
  induction n with
  | zero =>
    intro i hn
    have hle : tab.length ≤ i := by omega
    rw [lookup_loop, dif_neg (by omega), List.drop_of_length_le hle]
    simp [_lookup_slurm_api_errtab]
  | succ m ih =>
    intro i hn
    have hlt : i < tab.length := by omega
    rw [lookup_loop, dif_pos hlt, List.drop_eq_getElem_cons hlt, lookup_cons]
    by_cases hc : (tab.get ⟨i, hlt⟩).xe_number = c
    · have hc2 : tab[i].xe_number = c := by simpa using hc
      simp [hc, hc2]
    · have hc2 : ¬ tab[i].xe_number = c := by simpa using hc
      rw [if_neg hc, if_neg hc2]
      exact ih (i + 1) (by omega)

/-- The positions the indexed loop reads from `i` on are `i`, `i + 1`, ...,
without gaps or repetitions, and all lie inside the table. -/
theorem lookup_loop_positions (tab : List slurm_errtab_t) (c : Int) :
    ∀ n i, tab.length - i = n →
      ∃ k, k ≤ tab.length - i ∧ (lookup_loop tab c i).2 = List.range' i k := by
  intro n
  induction n with
  | zero =>
    intro i hn
    refine ⟨0, by omega, ?_⟩
    rw [lookup_loop, dif_neg (by omega)]
    rfl
  | succ m ih =>
    intro i hn
    have hlt : i < tab.length := by omega
    by_cases hc : (tab.get ⟨i, hlt⟩).xe_number = c
    · refine ⟨1, by omega, ?_⟩
      rw [lookup_loop, dif_pos hlt, if_pos hc]
      rfl
    · obtain ⟨k, hk, hv⟩ := ih (i + 1) (by omega)
      refine ⟨k + 1, by omega, ?_⟩
      rw [lookup_loop, dif_pos hlt, if_neg hc, List.range'_succ]
      simp [hv]

/-! ## The messages of the table -/

/-- No two positions of the table carry the same message text. -/
theorem errtab_messages_nodup (codes : ErrSymbol → Int) :
    ((slurm_errtab codes).map slurm_errtab_t.xe_message).Nodup := by
  simp only [slurm_errtab, List.map_cons, List.map_nil]
  decide

/-! ## The table in memory -/

/-- The body of `slurm_strerror` computes the spec's `describe`. -/
theorem strerror_tab_eq_describe_spec (tab : List slurm_errtab_t) (strerror : Int → String)
    (c : Int) : slurm_strerror_tab tab strerror c = describe_spec tab strerror c := by
  induction tab with
  | nil => rfl
  | cons e rest ih =>
    by_cases h : e.xe_number = c
    · simp [slurm_strerror_tab, describe_spec, _lookup_slurm_api_errtab, h]
    · simpa [slurm_strerror_tab, describe_spec, _lookup_slurm_api_errtab, h] using ih

/-- No call changes the array in memory. -/
theorem exec_errtab (strerror : Int → String) (k : Call) (m : Memory) :
    (exec strerror k m).2.errtab = m.errtab := by
  cases k <;> rfl

/-- No sequence of calls changes the array in memory. -/
theorem run_exec_errtab (strerror : Int → String) (calls : List Call) :
    ∀ m : Memory, (run_exec strerror calls m).errtab = m.errtab := by
  induction calls with
  | nil => intro m; rfl
  | cons k ks ih =>
    intro m
    rw [run_exec, ih, exec_errtab]

/-- On the initial memory, the calls act on the process state as `run_calls`
does. -/
theorem run_exec_proc (codes : ErrSymbol → Int) (strerror : Int → String)
    (calls : List Call) :
    ∀ st : ProcState, (run_exec strerror calls (initial_memory codes st)).proc
      = run_calls codes strerror calls st := by
  induction calls with
  | nil => intro st; rfl
  | cons k ks ih =>
    intro st
    have hstep : (exec strerror k (initial_memory codes st)).2
        = initial_memory codes (call codes strerror k st).2 := by
      cases k <;> rfl
    rw [run_exec, run_calls, hstep, ih]

/-! ## Claims on the registry, frames and determinism -/

/-- C11. Registry invariant, for values of the symbolic constants that
follow the header convention (pairwise different, at or above 1000): exactly
one entry of `slurm_errtab` has the number 0, exactly one has the number -1,
and the number of every other entry occurs exactly once in the table and is
at or above 1000. -/
theorem registry_invariant (codes : ErrSymbol → Int) (h : errno_header_convention codes) :
    (slurm_errtab codes).countP (fun x => decide (x.xe_number = 0)) = 1 ∧
    (slurm_errtab codes).countP (fun x => decide (x.xe_number = -1)) = 1 ∧
    ∀ e ∈ slurm_errtab codes, e.xe_number ≠ 0 → e.xe_number ≠ -1 →
      (slurm_errtab codes).countP (fun x => decide (x.xe_number = e.xe_number)) = 1 ∧
      1000 ≤ e.xe_number := by
  have hnd := errtab_numbers_nodup codes h
  have m0 : slurm_errtab_t.mk 0 "No error" ∈ slurm_errtab codes := by
    simp [slurm_errtab]
  have m1 : slurm_errtab_t.mk (-1) "Unspecified error" ∈ slurm_errtab codes := by
    simp [slurm_errtab]
  refine ⟨countP_number_eq_one _ hnd _ m0, countP_number_eq_one _ hnd _ m1, ?_⟩
  intro e he h0 h1
  refine ⟨countP_number_eq_one _ hnd e he, ?_⟩
  rcases errtab_number_cases codes e he with e0 | e1 | ⟨s, hs⟩
  · exact absurd e0 h0
  · exact absurd e1 h1
  · rw [hs]
    exact h.2 s

theorem registry_invariant_witness :
    errno_header_convention sample_codes ∧
    ((slurm_errtab sample_codes).countP (fun x => decide (x.xe_number = 0)) = 1 ∧
     (slurm_errtab sample_codes).countP (fun x => decide (x.xe_number = -1)) = 1 ∧
     ∀ e ∈ slurm_errtab sample_codes, e.xe_number ≠ 0 → e.xe_number ≠ -1 →
       (slurm_errtab sample_codes).countP (fun x => decide (x.xe_number = e.xe_number)) = 1 ∧
       1000 ≤ e.xe_number) :=
  ⟨sample_codes_convention, registry_invariant sample_codes sample_codes_convention⟩

/-- C12, as stated, fails.  From the state with `errno` 0, a call of
`slurm_perror` whose `fprintf` stores the error number 9 into `errno` (a
failed write) leaves `errno` at 9, and that call is not a call of
`slurm_seterrno`. -/
theorem reads_do_not_write_counterexample :
    ¬ ((call sample_codes sample_strerror (Call.perror "x" (some 9))
          (ProcState.mk 0 "")).2.errno = (ProcState.mk 0 "").errno ∨
       ∃ n, Call.perror "x" (some 9) = Call.seterrno n) := by
  rintro (h | ⟨n, hn⟩)
  · exact absurd h (by decide)
  · cases hn

/-- C12, amended.  `slurm_get_errno` returns the value of `errno` and leaves
the process state as it was, and two consecutive calls return the same value;
`slurm_strerror c` leaves `errno` and `stderr` as they were for every integer
`c`; and a call after which `errno` differs is a call of `slurm_seterrno`, or
a call of `slurm_perror` whose `fprintf` stored an error number into
`errno`, which is then the value of `errno`. -/
theorem reads_do_not_write_amended (codes : ErrSymbol → Int) (strerror : Int → String)
    (st : ProcState) (c : Int) :
    call codes strerror Call.get_errno st = (Ret.code st.errno, st) ∧
    (call codes strerror Call.get_errno (call codes strerror Call.get_errno st).2).1
      = (call codes strerror Call.get_errno st).1 ∧
    (call codes strerror (Call.strerror c) st).2 = st ∧
    (∀ k : Call, (call codes strerror k st).2.errno = st.errno ∨
      (∃ n, k = Call.seterrno n) ∨
      (∃ msg e, k = Call.perror msg (some e) ∧ (call codes strerror k st).2.errno = e)) := by
  refine ⟨rfl, rfl, rfl, ?_⟩
  intro k
  cases k with
  | strerror n => exact Or.inl rfl
  | get_errno => exact Or.inl rfl
  | seterrno n => exact Or.inr (Or.inl ⟨n, rfl⟩)
  | perror msg w =>
    cases w with
    | none => exact Or.inl rfl
    | some e => exact Or.inr (Or.inr ⟨msg, e, rfl, rfl⟩)

/-- C13. Determinism of `slurm_strerror`, on a memory that holds the array
`slurm_errtab`: no call changes the array; after every sequence of calls from
the initial memory the array is still its initialiser; with the same platform
resolver the text returned for `c` is the same after any two sequences of
calls from any two starting states; and that text is the spec's `describe`
on the initialiser. -/
theorem slurm_strerror_deterministic (codes : ErrSymbol → Int) (strerror : Int → String)
    (c : Int) (calls1 calls2 : List Call) (st1 st2 : ProcState) :
    (∀ (k : Call) (m : Memory), (exec strerror k m).2.errtab = m.errtab) ∧
    (run_exec strerror calls1 (initial_memory codes st1)).errtab = slurm_errtab codes ∧
    (exec strerror (Call.strerror c) (run_exec strerror calls1 (initial_memory codes st1))).1
      = (exec strerror (Call.strerror c)
          (run_exec strerror calls2 (initial_memory codes st2))).1 ∧
    (exec strerror (Call.strerror c) (run_exec strerror calls1 (initial_memory codes st1))).1
      = Ret.text (describe_spec (slurm_errtab codes) strerror c) := by
  have key : ∀ (calls : List Call) (st : ProcState),
      (exec strerror (Call.strerror c) (run_exec strerror calls (initial_memory codes st))).1
        = Ret.text (describe_spec (slurm_errtab codes) strerror c) := by
    intro calls st
    show Ret.text (slurm_strerror_tab
      (run_exec strerror calls (initial_memory codes st)).errtab strerror c) = _
    rw [run_exec_errtab, strerror_tab_eq_describe_spec]
    rfl
  refine ⟨exec_errtab strerror, ?_, ?_, key calls1 st1⟩
  · rw [run_exec_errtab]
    rfl
  · rw [key calls1 st1, key calls2 st2]

/-- C15. For every table and every integer `c`, the search returns `NULL`
exactly when no entry has the number `c`, and otherwise returns the message
of an entry with the number `c`; the indexed loop of the source computes the
same result and reads the positions 0, 1, ..., k - 1 for some k not above
the table length, each once. -/
theorem lookup_total (tab : List slurm_errtab_t) (c : Int) :
    (_lookup_slurm_api_errtab tab c = none ↔ ∀ e ∈ tab, e.xe_number ≠ c) ∧
    (_lookup_slurm_api_errtab tab c = none ∨
      ∃ e ∈ tab, e.xe_number = c ∧ _lookup_slurm_api_errtab tab c = some e.xe_message) ∧
    (lookup_loop tab c 0).1 = _lookup_slurm_api_errtab tab c ∧
    (∃ k, k ≤ tab.length ∧ (lookup_loop tab c 0).2 = List.range k) := by
  refine ⟨lookup_eq_none_iff tab c, ?_, ?_, ?_⟩
  · cases hl : _lookup_slurm_api_errtab tab c with
    | none => exact Or.inl rfl
    | some m =>
      obtain ⟨e, he, hc, hm⟩ := lookup_some_mem tab c m hl
      exact Or.inr ⟨e, he, hc, by rw [hm]⟩
  · simpa using lookup_loop_result tab c (tab.length - 0) 0 rfl
  · obtain ⟨k, hk, hv⟩ := lookup_loop_positions tab c (tab.length - 0) 0 rfl
    exact ⟨k, by omega, by rw [hv, List.range_eq_range']⟩

/-- C16. The message texts of `slurm_errtab` are pairwise distinct: entries
at different positions carry different strings.  Hence two different numbers
that both occur in the table are never rendered by `slurm_strerror` as the
same text. -/
theorem errtab_messages_distinct (codes : ErrSymbol → Int) (strerror : Int → String) :
    (∀ i j, ∀ hi : i < (slurm_errtab codes).length, ∀ hj : j < (slurm_errtab codes).length,
      i ≠ j →
      ((slurm_errtab codes).get ⟨i, hi⟩).xe_message
        ≠ ((slurm_errtab codes).get ⟨j, hj⟩).xe_message) ∧
    (∀ c1 c2 : Int, (∃ e ∈ slurm_errtab codes, e.xe_number = c1) →
      (∃ e ∈ slurm_errtab codes, e.xe_number = c2) → c1 ≠ c2 →
      slurm_strerror codes strerror c1 ≠ slurm_strerror codes strerror c2) := by
  have hnd := errtab_messages_nodup codes
  constructor
  · intro i j hi hj hij heq
    have hi2 : i < ((slurm_errtab codes).map slurm_errtab_t.xe_message).length := by
      simpa using hi
    have hj2 : j < ((slurm_errtab codes).map slurm_errtab_t.xe_message).length := by
      simpa using hj
    have h3 : ((slurm_errtab codes).map slurm_errtab_t.xe_message)[i]
        = ((slurm_errtab codes).map slurm_errtab_t.xe_message)[j] := by
      simpa using heq
    exact hij ((List.Nodup.getElem_inj_iff hnd).mp h3)
  · intro c1 c2 h1 h2 hne heq
    have key : ∀ c : Int, (∃ e ∈ slurm_errtab codes, e.xe_number = c) →
        ∃ e ∈ slurm_errtab codes, e.xe_number = c ∧
          slurm_strerror codes strerror c = e.xe_message := by
      intro c hc
      rcases strerror_tab_cases (slurm_errtab codes) strerror c with hin | ⟨hno, _⟩
      · exact hin
      · obtain ⟨x, hx, hxc⟩ := hc
        exact absurd hxc (hno x hx)
    obtain ⟨e1, he1, hn1, hm1⟩ := key c1 h1
    obtain ⟨e2, he2, hn2, hm2⟩ := key c2 h2
    have hee : e1 = e2 :=
      List.inj_on_of_nodup_map hnd he1 he2 (by rw [← hm1, ← hm2, heq])
    exact hne (by rw [← hn1, ← hn2, hee])

theorem errtab_messages_distinct_witness :
    ((slurm_errtab sample_codes).get ⟨0, by decide⟩).xe_message
      ≠ ((slurm_errtab sample_codes).get ⟨1, by decide⟩).xe_message ∧
    slurm_strerror sample_codes sample_strerror 1000
      ≠ slurm_strerror sample_codes sample_strerror 1027 :=
  ⟨(errtab_messages_distinct sample_codes sample_strerror).1 0 1 (by decide) (by decide)
      (by decide),
   (errtab_messages_distinct sample_codes sample_strerror).2 1000 1027
      ⟨slurm_errtab_t.mk 1000 "Unexpected message received", by decide, rfl⟩
      ⟨slurm_errtab_t.mk 1027 "Invalid job id specified", by decide, rfl⟩ (by decide)⟩

/-- C17, as stated, fails.  From the state with `errno` 0, a call of
`slurm_perror` whose `fprintf` stores the error number 9 into `errno` (a
failed write) leaves `errno` at 9, and a second call then prints the
description of 9, not the line of the first call. -/
theorem slurm_perror_frame_counterexample :
    slurm_get_errno (slurm_perror sample_codes sample_strerror (some 9) "x" (ProcState.mk 0 ""))
      ≠ slurm_get_errno (ProcState.mk 0 "") ∧
    (slurm_perror sample_codes sample_strerror (some 9) "x"
        (slurm_perror sample_codes sample_strerror (some 9) "x" (ProcState.mk 0 ""))).stderr
      ≠ "x: No error\n" ++ "x: No error\n" := by
  constructor <;> decide

/-- C17, amended.  For every label and state, `slurm_perror label` only
appends to `stderr`: the earlier content is a prefix of the later content,
whatever the write does to `errno`.  When its `fprintf` stores nothing into
`errno`, `slurm_get_errno` returns the same value before and after the call,
and a second call in a row appends the same line again. -/
theorem slurm_perror_frame_amended (codes : ErrSymbol → Int) (strerror : Int → String)
    (w : Option Int) (label : String) (st : ProcState) :
    st.stderr.data <+: (slurm_perror codes strerror w label st).stderr.data ∧
    slurm_get_errno (slurm_perror codes strerror none label st) = slurm_get_errno st ∧
    (slurm_perror codes strerror w label (slurm_perror codes strerror none label st)).stderr
      = st.stderr
        ++ (label ++ ": " ++ slurm_strerror codes strerror (slurm_get_errno st) ++ "\n")
        ++ (label ++ ": " ++ slurm_strerror codes strerror (slurm_get_errno st) ++ "\n") := by
  refine ⟨?_, rfl, rfl⟩
  simp [slurm_perror, slurm_perror_tab, fprintf_stderr]

end SlurmErrno
